import Mathlib

/-
Verification development for the byMCP payroll pipeline.

Shallow embedding of:
  src/skills/payroll/pdf_processor.py   (amount extraction, name scoring, page matching)
  src/skills/payroll/idempotency.py     (idempotency key, ledger operations)
  src/skills/payroll/qonto_client.py    (request retry loop, SCA polling, transfer flow)
  src/skills/payroll/__init__.py        (payroll_process orchestrator)

Conventions: machine text is `List Char`; Python `re` patterns are embedded as
explicit backtracking matchers whose candidate order mirrors the greedy /
leftmost semantics of the source patterns; SQLite rows become a function
`String → Option TransferRecord`; wall-clock timestamps are explicit `Nat`
parameters; the bank and approval endpoints are explicit oracles.
-/

set_option maxRecDepth 20000

abbrev Chars := List Char

/-- ASCII lowercasing extended with the German umlauts that appear in the
source keywords (mirrors Python `str.lower` on the relevant alphabet). -/
def lowerChar (c : Char) : Char :=
  if c = 'Ä' then 'ä' else if c = 'Ö' then 'ö' else if c = 'Ü' then 'ü' else c.toLower

/-- Python `\s` / `str.strip` whitespace (ASCII range). -/
def pyIsSpace (c : Char) : Bool :=
  c = ' ' || c = '\t' || c = '\n' || c = '\r' || c = '\x0b' || c = '\x0c'

/-- Python `str.strip()`: drop whitespace from both ends. -/
def pyStrip (cs : Chars) : Chars :=
  ((cs.dropWhile pyIsSpace).reverse.dropWhile pyIsSpace).reverse

/-- Python `str.split()` with no argument: split on whitespace runs, dropping
empty fields. -/
def pySplit (cs : Chars) : List Chars :=
  (cs.splitOnP pyIsSpace).filter (fun w => w ≠ [])

/-- Python substring containment (`needle in hay`); the empty needle is
contained in everything. -/
def containsSub (hay needle : Chars) : Bool :=
  match hay with
  | [] => needle.isEmpty
  | _ :: t => needle.isPrefixOf hay || containsSub t needle

/-- Regex `\d` on the inputs of interest (ASCII digits). -/
def isDig (c : Char) : Bool := '0' ≤ c && c ≤ '9'

/-- Regex `\w` on the inputs of interest (ASCII word chars plus German letters). -/
def pyIsWord (c : Char) : Bool :=
  c.isAlphanum || c = '_' || c = 'ä' || c = 'ö' || c = 'ü' || c = 'ß' ||
  c = 'Ä' || c = 'Ö' || c = 'Ü'

/-
Backtracking matchers. A matcher maps the current suffix to the list of
possible remaining suffixes, in the priority order Python `re` would try them
(greedy quantifiers produce the longest consumption first).
-/

abbrev RMatch := Chars → List Chars

/-- Case-insensitive literal (the `(?i)` flag of patterns 1-8). -/
def litCI : Chars → Chars → Option Chars
  | [], cs => some cs
  | k :: ks, c :: cs => if lowerChar k = lowerChar c then litCI ks cs else none
  | _ :: _, [] => none

/-- Case-sensitive literal (pattern 9 carries no `(?i)` flag). -/
def litCS : Chars → Chars → Option Chars
  | [], cs => some cs
  | k :: ks, c :: cs => if k = c then litCS ks cs else none
  | _ :: _, [] => none

def mlit (ci : Bool) (kw : Chars) : RMatch := fun cs =>
  match (if ci then litCI kw cs else litCS kw cs) with
  | some r => [r]
  | none => []

/-- Greedy `p*` over single characters: longest consumption first. -/
def mstar (p : Char → Bool) : RMatch := fun cs =>
  let n := (cs.takeWhile p).length
  (List.range (n + 1)).map (fun i => cs.drop (n - i))

/-- Greedy `a?`: try matching first, then the empty alternative. -/
def mopt (a : RMatch) : RMatch := fun cs => a cs ++ [cs]

/-- Single character satisfying a predicate. -/
def mchar (p : Char → Bool) : RMatch := fun cs =>
  match cs with
  | c :: t => if p c then [t] else []
  | [] => []

def mseq (a b : RMatch) : RMatch := fun cs => (a cs).flatMap b

/-- Exactly `k` digits, returning (consumed, rest). -/
def takeDigits : Nat → Chars → Option (Chars × Chars)
  | 0, cs => some ([], cs)
  | k + 1, c :: cs =>
    if isDig c then (takeDigits k cs).map (fun p => (c :: p.1, p.2)) else none
  | _ + 1, [] => none

/-- Greedy `\d{1,3}`: three digits first, then two, then one. -/
def amtHead (cs : Chars) : List (Chars × Chars) :=
  [3, 2, 1].filterMap (fun k => takeDigits k cs)

/-- One `\.\d{3}` block. -/
def dotBlock (cs : Chars) : Option (Chars × Chars) :=
  match cs with
  | '.' :: rest => (takeDigits 3 rest).map (fun p => ('.' :: p.1, p.2))
  | _ => none

/-- Greedy `(?:\.\d{3})*`: all chain prefixes, longest first (fuel-indexed). -/
def dotChainF : Nat → Chars → List (Chars × Chars)
  | 0, cs => [([], cs)]
  | f + 1, cs =>
    match dotBlock cs with
    | some (g, r) => ((dotChainF f r).map (fun p => (g ++ p.1, p.2))) ++ [([], cs)]
    | none => [([], cs)]

def dotChain (cs : Chars) : List (Chars × Chars) := dotChainF cs.length cs

/-- The `,\d{2}` suffix of an amount. -/
def commaDD (cs : Chars) : Option (Chars × Chars) :=
  match cs with
  | ',' :: rest => (takeDigits 2 rest).map (fun p => (',' :: p.1, p.2))
  | _ => none

/-- The capture group `(\d{1,3}(?:\.\d{3})*,\d{2})` (`_AMT` in the source):
candidates of (captured text, rest) in backtracking order. -/
def matchAMT (cs : Chars) : List (Chars × Chars) :=
  (amtHead cs).flatMap (fun p1 =>
    (dotChain p1.2).flatMap (fun p2 =>
      match commaDD p2.2 with
      | some p3 => [(p1.1 ++ p2.1 ++ p3.1, p3.2)]
      | none => []))

/-- `_SEP` of the source: `\s*[:\-=]?\s*`. -/
def mSEP : RMatch :=
  mseq (mstar pyIsSpace)
    (mseq (mopt (mchar (fun c => c = ':' || c = '-' || c = '='))) (mstar pyIsSpace))

/-- `_EUR` of the source: `(?:(?:EUR|€)\s*)?`. -/
def mEURopt (ci : Bool) : RMatch :=
  mopt (mseq (fun cs => mlit ci ['E', 'U', 'R'] cs ++ mlit ci ['€'] cs) (mstar pyIsSpace))

/-- Suffix of patterns 2-8 after the keyword: SEP, optional EUR, amount group. -/
def tailSEA (cs : Chars) : List (Chars × Chars) :=
  (mSEP cs).flatMap (fun r1 => (mEURopt true r1).flatMap matchAMT)

/-- `re.search` driver: try the pattern at each start position left to right
and return the first capture (head of the candidate list = the match Python
commits to). -/
def searchGo (step : Chars → List (Chars × Chars)) : Chars → Option Chars
  | [] =>
    match step [] with
    | p :: _ => some p.1
    | [] => none
  | c :: t =>
    match step (c :: t) with
    | p :: _ => some p.1
    | [] => searchGo step t

/-- `\s*\n` of pattern 1: a whitespace prefix whose final consumed character
is a newline, longest first. -/
def mWsNl : RMatch := fun cs =>
  let n := (cs.takeWhile pyIsSpace).length
  ((List.range n).map (fun i => n - i)).filterMap (fun k =>
    match cs.drop (k - 1) with
    | '\n' :: rest => some rest
    | _ => none)

/-- `[^\n]*(?<!\d)(?<!\.)` followed by the amount group, for pattern 1: the
greedy star tries the rightmost start first, and the lookbehinds reject starts
preceded by a digit or a dot. -/
def pat1LineAMT (cs : Chars) : List (Chars × Chars) :=
  let n := (cs.takeWhile (fun c => c ≠ '\n')).length
  ((List.range (n + 1)).map (fun i => n - i)).flatMap (fun k =>
    let okLB : Bool :=
      if k = 0 then true
      else
        match cs.drop (k - 1) with
        | c :: _ => !isDig c && c ≠ '.'
        | [] => true
    if okLB then matchAMT (cs.drop k) else [])

/-- Pattern `(?i)auszahlungsbetrag\s*\n[^\n]*(?<!\d)(?<!\.)AMT`. -/
def pat1 : Chars → Option Chars :=
  searchGo (fun cs =>
    (mlit true "auszahlungsbetrag".data cs).flatMap (fun r1 =>
      (mWsNl r1).flatMap pat1LineAMT))

/-- Patterns of the shape `(?i)KEYWORD SEP EUR? AMT` (patterns 2-5, 7, 8). -/
def patKW (kw : String) : Chars → Option Chars :=
  searchGo (fun cs => (mlit true kw.data cs).flatMap tailSEA)

/-- Pattern `(?i)überweisung\w*{SEP}{EUR}{AMT}` (pattern 6). -/
def pat6 : Chars → Option Chars :=
  searchGo (fun cs =>
    (mlit true "überweisung".data cs).flatMap (fun r1 =>
      (mstar pyIsWord r1).flatMap tailSEA))

/-- Pattern `AMT\s*(?:EUR|€)` (pattern 9, case-sensitive). -/
def pat9 : Chars → Option Chars :=
  searchGo (fun cs =>
    (matchAMT cs).flatMap (fun p =>
      ((mstar pyIsSpace p.2).flatMap
          (fun r2 => mlit false ['E', 'U', 'R'] r2 ++ mlit false ['€'] r2)).map
        (fun r3 => (p.1, r3))))

/-- The ordered `_AMOUNT_PATTERNS` list of the source. -/
def _AMOUNT_PATTERNS : List (Chars → Option Chars) :=
  [pat1, patKW "auszahlungsbetrag", patKW "nettolohn", patKW "nettogehalt",
   patKW "netto", pat6, patKW "zahlbetrag", patKW "betrag", pat9]

def digitsToNat (ds : Chars) : Nat :=
  ds.foldl (fun a c => a * 10 + (c.toNat - 48)) 0

/-- `_german_amount_to_cents` of the source. On every string the amount
grammar can produce (dot thousands separators, exactly two decimals) the
source's `round(float(...) * 100)` computes exactly `whole * 100 + frac`,
which is what we define. -/
def _german_amount_to_cents (g : Chars) : Nat :=
  let noDots := g.filter (fun c => c ≠ '.')
  let whole := noDots.takeWhile (fun c => c ≠ ',')
  let frac := (noDots.dropWhile (fun c => c ≠ ',')).drop 1
  digitsToNat whole * 100 + digitsToNat frac

/-- The pattern loop of `_extract_amount`: first pattern whose leftmost match
parses to a strictly positive cent value wins; otherwise zero. -/
def extractGo (text : Chars) : List (Chars → Option Chars) → Nat
  | [] => 0
  | p :: ps =>
    match p text with
    | some g => if 0 < _german_amount_to_cents g then _german_amount_to_cents g else extractGo text ps
    | none => extractGo text ps

/-- `_extract_amount` of the source. -/
def _extract_amount (text : String) : Nat :=
  extractGo text.data _AMOUNT_PATTERNS

example : _extract_amount "Auszahlungsbetrag: 7.633,63 EUR" = 763363 := by decide
example : _extract_amount "Betrag 0,00" = 0 := by decide
example : _extract_amount "1234,56 EUR" = 23456 := by decide
example : _extract_amount "Betrag 0,00 und 5,00 EUR" = 500 := by decide
example : _extract_amount "netto - EUR 1.000,00" = 100000 := by decide
example : _extract_amount "AUSZAHLUNGSBETRAG = eur 12,34" = 1234 := by decide
example : _extract_amount "Zahlbetrag:   \n 77,88" = 7788 := by decide
example : _extract_amount "1.111.11,22 EUR" = 1122 := by decide
example : _extract_amount "betrag 1.234,567" = 123456 := by decide
example : pat1 "Auszahlungsbetrag\nfoo 1.111,11 und 22,22 mehr".data = some "22,22".data := by decide
example : pat1 "Auszahlungsbetrag\nx9.999,99 zz 5,00".data = some "5,00".data := by decide
example : pat1 "Auszahlungsbetrag\nx.111,11 und 3,33".data = some "3,33".data := by decide
example : pat6 "überweisung123,45".data = some "3,45".data := by decide

/-
Name scoring and page matching (pdf_processor.py).

Scores are rationals; the source's Python float literals 1.0, 0.7, 0.4, 0.2,
0.0 and the threshold comparison `best_score < 0.4` order and compare exactly
as the rationals 1, 7/10, 2/5, 1/5, 0 do.
-/

/-- `_score_name_match` of the source: tiered containment heuristic. -/
def _score_name_match (text name : String) : ℚ :=
  let textL := text.data.map lowerChar
  let nameL := pyStrip (name.data.map lowerChar)
  if containsSub textL nameL then 1
  else
    let parts := pySplit nameL
    if parts.length < 2 then
      if containsSub textL (parts.headD []) then 1 else 0
    else if parts.all (fun p => containsSub textL p) then mkRat 7 10
    else if containsSub textL (parts.getLastD []) then mkRat 2 5
    else if containsSub textL (parts.headD []) then mkRat 1 5
    else 0

example : _score_name_match "Nur Richter hier" "Michael Richter" = mkRat 2 5 := by decide
example : _score_name_match "kein Treffer" "Michael Richter" = 0 := by decide
example : _score_name_match "hier Michael Richter selbst" "Michael Richter" = 1 := by decide
example : _score_name_match "Richter und auch Michael" "Michael Richter" = mkRat 7 10 := by decide
example : _score_name_match "nur Michael da" "Michael Richter" = mkRat 1 5 := by decide

/-- Employee rows produced by the roster parser (csv_parser.Employee); the
mutable fields are populated during PDF processing. -/
structure Employee where
  name : String
  iban : String
  iban_masked : String
  target_dir : String
  page_index : Int := -1
  amount_cents : Int := 0
  pdf_saved : Bool := false
deriving DecidableEq, Repr

instance : Inhabited Employee := ⟨{ name := "", iban := "", iban_masked := "", target_dir := "" }⟩

/-- The best-match loop of `process_pdf` (strict improvement, so the first
employee in roster order wins ties): returns (best score, index of winner). -/
def bestMatchIdx (text : String) (emps : List Employee) : ℚ × Option Nat :=
  emps.enum.foldl
    (fun acc ie =>
      let s := _score_name_match text ie.2.name
      if acc.1 < s then (s, some ie.1) else acc)
    (0, none)

/-- ASCII uppercasing with German letters; Python upper-cases ß to SS. -/
def pyUpperChars (cs : Chars) : Chars :=
  cs.flatMap (fun c =>
    if c = 'ß' then ['S', 'S']
    else if c = 'ä' then ['Ä'] else if c = 'ö' then ['Ö'] else if c = 'ü' then ['Ü']
    else [c.toUpper])

/-- `_make_filename` of the source: YYYYMM then initials. -/
def _make_filename (name period : String) : String :=
  let pc := period.data.filter (fun c => c ≠ '-')
  let parts := pySplit (pyStrip name.data)
  let first := parts.headD []
  let last := if parts.length > 1 then parts.getLastD [] else first
  String.mk (pc ++ '_' :: pyUpperChars (first.take 1 ++ last.take 2))

example : _make_filename "Michael Richter" "2026-02" = "202602_MRI" := by decide

/-- `ProcessingResult` of the source; unmatched pages are 1-based. -/
structure ProcessingResult where
  saved_files : List String := []
  unmatched_pages : List Nat := []
  errors : List String := []
deriving DecidableEq, Repr

/-- One iteration of the page loop of `process_pdf`: match the page text to
the best employee, update that employee's fields in place, and save the page
(the `saveOk` oracle stands for the file-system write succeeding). -/
def processPage (period : String) (skipSave : List String) (saveOk : Nat → Bool)
    (st : ProcessingResult × List Employee) (idx : Nat) (text : String) :
    ProcessingResult × List Employee :=
  let (res, emps) := st
  let amount := _extract_amount text
  let best := bestMatchIdx text emps
  match best.2 with
  | none => ({ res with unmatched_pages := res.unmatched_pages ++ [idx + 1] }, emps)
  | some i =>
    if best.1 < mkRat 2 5 then
      ({ res with unmatched_pages := res.unmatched_pages ++ [idx + 1] }, emps)
    else
      match emps.get? i with
      | none => (res, emps)
      | some e =>
        let e1 := { e with page_index := (idx : Int), amount_cents := (amount : Int) }
        if skipSave.contains e1.name then (res, emps.set i e1)
        else if saveOk idx then
          let path := e1.target_dir ++ "/" ++ _make_filename e1.name period ++ ".pdf"
          ({ res with saved_files := res.saved_files ++ [path] },
           emps.set i { e1 with pdf_saved := true })
        else
          ({ res with errors := res.errors ++ ["Seite " ++ toString (idx + 1)] },
           emps.set i e1)

/-- `process_pdf` of the source, over already-extracted page texts (a page
whose text extraction failed contributes the empty string, as in the source). -/
def process_pdf (pages : List String) (emps : List Employee) (period : String)
    (skipSave : List String) (saveOk : Nat → Bool) :
    ProcessingResult × List Employee :=
  pages.enum.foldl (fun st it => processPage period skipSave saveOk st it.1 it.2)
    ({}, emps)

example :
    (process_pdf ["Nur Richter hier, Betrag 12,34"]
      [{ name := "Michael Richter", iban := "DE1", iban_masked := "m", target_dir := "d" }]
      "2026-02" [] (fun _ => true)).1.unmatched_pages = [] := by decide
example :
    (process_pdf ["kein Treffer"]
      [{ name := "Michael Richter", iban := "DE1", iban_masked := "m", target_dir := "d" }]
      "2026-02" [] (fun _ => true)).1.unmatched_pages = [1] := by decide
example :
    ((process_pdf ["Nur Richter hier, Betrag 12,34"]
      [{ name := "Michael Richter", iban := "DE1", iban_masked := "m", target_dir := "d" }]
      "2026-02" [] (fun _ => true)).2.headD default).amount_cents = 1234 := by decide

/-
Idempotency ledger (idempotency.py).

`make_idempotency_key` hashes the canonical string with SHA-256 (hashlib);
the algorithm below is the FIPS 180-4 compression over 32-bit words carried
as `Nat` with explicit `% 2^32` truncation.
-/

def w32 (n : Nat) : Nat := n % 4294967296

def rotr32 (k n : Nat) : Nat := w32 ((n >>> k) ||| (n <<< (32 - k)))

def shaS0 (x : Nat) : Nat := (rotr32 2 x) ^^^ (rotr32 13 x) ^^^ (rotr32 22 x)
def shaS1 (x : Nat) : Nat := (rotr32 6 x) ^^^ (rotr32 11 x) ^^^ (rotr32 25 x)
def shas0 (x : Nat) : Nat := (rotr32 7 x) ^^^ (rotr32 18 x) ^^^ (x >>> 3)
def shas1 (x : Nat) : Nat := (rotr32 17 x) ^^^ (rotr32 19 x) ^^^ (x >>> 10)

def K256 : List Nat :=
  [1116352408, 1899447441, 3049323471, 3921009573, 961987163, 1508970993,
   2453635748, 2870763221, 3624381080, 310598401, 607225278, 1426881987,
   1925078388, 2162078206, 2614888103, 3248222580, 3835390401, 4022224774,
   264347078, 604807628, 770255983, 1249150122, 1555081692, 1996064986,
   2554220882, 2821834349, 2952996808, 3210313671, 3336571891, 3584528711,
   113926993, 338241895, 666307205, 773529912, 1294757372, 1396182291,
   1695183700, 1986661051, 2177026350, 2456956037, 2730485921, 2820302411,
   3259730800, 3345764771, 3516065817, 3600352804, 4094571909, 275423344,
   430227734, 506948616, 659060556, 883997877, 958139571, 1322822218,
   1537002063, 1747873779, 1955562222, 2024104815, 2227730452, 2361852424,
   2428436474, 2756734187, 3204031479, 3329325298]

def sha256H0 : List Nat :=
  [1779033703, 3144134277, 1013904242, 2773480762, 1359893119, 2600822924, 528734635, 1541459225]

/-- Big-endian 64-bit byte decomposition. -/
def be64 (n : Nat) : List Nat :=
  [(n >>> 56) &&& 255, (n >>> 48) &&& 255, (n >>> 40) &&& 255, (n >>> 32) &&& 255,
   (n >>> 24) &&& 255, (n >>> 16) &&& 255, (n >>> 8) &&& 255, n &&& 255]

def be32 (n : Nat) : List Nat :=
  [(n >>> 24) &&& 255, (n >>> 16) &&& 255, (n >>> 8) &&& 255, n &&& 255]

/-- SHA-256 message padding: 0x80, zeros to 56 mod 64, 8-byte bit length. -/
def shaPad (msg : List Nat) : List Nat :=
  let L := msg.length
  let zeros := (64 - ((L + 9) % 64)) % 64
  msg ++ [0x80] ++ List.replicate zeros 0 ++ be64 (L * 8)

/-- Group a byte list into big-endian 32-bit words. -/
def bytesToWords : List Nat → List Nat
  | b0 :: b1 :: b2 :: b3 :: rest => (b0 <<< 24 ||| b1 <<< 16 ||| b2 <<< 8 ||| b3) :: bytesToWords rest
  | _ => []

/-- Split a word list into 16-word blocks (fuel-indexed on the length). -/
def chunk16F : Nat → List Nat → List (List Nat)
  | _, [] => []
  | 0, _ => []
  | f + 1, ws => ws.take 16 :: chunk16F f (ws.drop 16)

/-- Message schedule: extend a 16-word block to 64 words. -/
def fullW (block : List Nat) : List Nat :=
  (List.range 48).foldl
    (fun w _ =>
      let i := w.length
      w ++ [w32 (w.getD (i - 16) 0 + shas0 (w.getD (i - 15) 0) + w.getD (i - 7) 0 + shas1 (w.getD (i - 2) 0))])
    block

/-- One SHA-256 compression round over the 8-word state. -/
def shaRound (w : List Nat) (st : List Nat) (i : Nat) : List Nat :=
  match st with
  | [a, b, c, d, e, f, g, hh] =>
    let s1 := shaS1 e
    let ch := (e &&& f) ^^^ ((4294967295 ^^^ e) &&& g)
    let t1 := w32 (hh + s1 + ch + K256.getD i 0 + w.getD i 0)
    let s0 := shaS0 a
    let mj := (a &&& b) ^^^ (a &&& c) ^^^ (b &&& c)
    let t2 := w32 (s0 + mj)
    [w32 (t1 + t2), a, b, c, w32 (d + t1), e, f, g]
  | _ => st

/-- Compress one 16-word block into the hash state. -/
def shaCompress (h : List Nat) (block : List Nat) : List Nat :=
  let w := fullW block
  let fin := (List.range 64).foldl (shaRound w) h
  (h.zip fin).map (fun p => w32 (p.1 + p.2))

/-- SHA-256 digest bytes of a byte string. -/
def sha256bytes (msg : List Nat) : List Nat :=
  let ws := bytesToWords (shaPad msg)
  ((chunk16F ws.length ws).foldl shaCompress sha256H0).flatMap be32

def hexDigit (n : Nat) : Char :=
  if n < 10 then Char.ofNat (48 + n) else Char.ofNat (87 + n)

/-- Lowercase hex rendering, as `hashlib.sha256(...).hexdigest()` produces. -/
def sha256hex (msg : List Nat) : String :=
  String.mk ((sha256bytes msg).flatMap (fun b => [hexDigit (b >>> 4), hexDigit (b &&& 15)]))

/-- UTF-8 encoding of one character (`str.encode()` of the source). -/
def utf8Char (c : Char) : List Nat :=
  let n := c.toNat
  if n < 128 then [n]
  else if n < 2048 then [192 + n / 64, 128 + n % 64]
  else if n < 65536 then [224 + n / 4096, 128 + (n / 64) % 64, 128 + n % 64]
  else [240 + n / 262144, 128 + (n / 4096) % 64, 128 + (n / 64) % 64, 128 + n % 64]

def utf8Str (cs : Chars) : List Nat := cs.flatMap utf8Char

/-- `make_idempotency_key` of the source: SHA-256 hex digest of
`name.strip().lower() + "|" + period + "|" + str(amount_cents)`. -/
def make_idempotency_key (name period : String) (amount_cents : Int) : String :=
  sha256hex (utf8Str
    (((pyStrip name.data).map lowerChar) ++ '|' :: period.data ++ '|' :: (toString amount_cents).data))

/-- Lifecycle states stored in the `status` column. -/
inductive TStatus
  | pending
  | success
  | failed
deriving DecidableEq, Repr

/-- A row of the `transfers` table. -/
structure TransferRecord where
  employee_name : String
  period : String
  amount_cents : Int
  status : TStatus
  transfer_id : Option String
  created_at : Nat
  updated_at : Nat
deriving DecidableEq, Repr

/-- The `transfers` table, keyed by `idempotency_key`. -/
def Ledger := String → Option TransferRecord

/-- `is_already_processed` of the source: true only for an existing row with
status success. -/
def is_already_processed (l : Ledger) (key : String) : Bool :=
  match l key with
  | some r => r.status = TStatus.success
  | none => false

/-- `record_pending` of the source: INSERT .. ON CONFLICT DO UPDATE SET
status, updated_at — an existing row keeps every other column. -/
def record_pending (l : Ledger) (key name period : String) (amount_cents : Int)
    (now : Nat) : Ledger :=
  fun k =>
    if k = key then
      match l key with
      | some r => some { r with status := TStatus.pending, updated_at := now }
      | none => some ⟨name, period, amount_cents, TStatus.pending, none, now, now⟩
    else l k

/-- `record_success` of the source: UPDATE status, transfer_id, updated_at
(no-op on an absent key). -/
def record_success (l : Ledger) (key : String) (transfer_id : Option String)
    (now : Nat) : Ledger :=
  fun k =>
    if k = key then
      (l key).map (fun r => { r with status := TStatus.success, transfer_id := transfer_id, updated_at := now })
    else l k

/-- `record_failure` of the source: UPDATE status, updated_at (no-op on an
absent key; the error text is only logged). -/
def record_failure (l : Ledger) (key : String) (error : String) (now : Nat) : Ledger :=
  fun k =>
    if k = key then
      (l key).map (fun r => { r with status := TStatus.failed, updated_at := now })
    else l k

/-
Qonto client (qonto_client.py).

`_request` is embedded at the level of wire attempts: the `wire` oracle gives
the outcome of the n-th HTTP attempt (a response with status code and parsed
Retry-After header, a timeout, or a connection error). The loop returns the
final response status (`none` means the trailing `raise ConnectionError`) and
the list of back-off sleeps it performed, in order.
-/

inductive WireOutcome
  | resp (status : Nat) (retryAfter : Option Nat)
  | timedOut
  | connFailed
deriving DecidableEq, Repr

/-- The `for attempt in range(1, retries + 1)` loop of `_request`. The fuel is
`retries - attempt + 1`, the number of remaining iterations. -/
def requestLoop (wire : Nat → WireOutcome) (retries : Nat) : Nat → Nat → Option Nat × List Nat
  | 0, _ => (none, [])
  | fuel + 1, attempt =>
    match wire attempt with
    | .resp s ra =>
      if s = 429 || 500 ≤ s then
        if attempt < retries then
          let rest := requestLoop wire retries fuel (attempt + 1)
          (rest.1, ra.getD (2 ^ attempt) :: rest.2)
        else (some s, [])
      else (some s, [])
    | .timedOut =>
      if attempt < retries then
        let rest := requestLoop wire retries fuel (attempt + 1)
        (rest.1, 2 ^ attempt :: rest.2)
      else (none, [])
    | .connFailed =>
      if attempt < retries then
        let rest := requestLoop wire retries fuel (attempt + 1)
        (rest.1, 2 ^ attempt :: rest.2)
      else (none, [])

/-- `_request` of the source with its default retry budget `retries = 3`:
three total attempts. -/
def _request (wire : Nat → WireOutcome) (retries : Nat := 3) : Option Nat × List Nat :=
  requestLoop wire retries retries 1

/-
Step-up (SCA) approval polling. The `polls` oracle gives the n-th poll of
GET /sca_sessions/{token}: a connection failure or a response carrying the
HTTP status and the session `result` string. Every non-terminal iteration
sleeps 2 seconds, so the loop `while time.time() < deadline` runs at most
ceil(timeout / 2) iterations.
-/

inductive PollOutcome
  | connFailed
  | resp (code : Nat) (result : String)
deriving DecidableEq, Repr

/-- Session results the source treats as a denial. -/
def denyResults : List String := ["deny", "denied", "rejected", "cancel"]

/-- The polling loop body of `_poll_sca_session`, fuel-indexed by the number
of remaining iterations before the deadline. -/
def pollLoop (polls : Nat → PollOutcome) : Nat → Nat → Bool
  | 0, _ => false
  | fuel + 1, n =>
    match polls n with
    | .connFailed => pollLoop polls fuel (n + 1)
    | .resp code result =>
      if code = 200 then
        if result = "allow" then true
        else if denyResults.contains result then false
        else pollLoop polls fuel (n + 1)
      else pollLoop polls fuel (n + 1)

/-- `_poll_sca_session` of the source (default deadline 300 seconds, one poll
every 2 seconds). -/
def _poll_sca_session (polls : Nat → PollOutcome) (timeout_seconds : Nat := 300) : Bool :=
  pollLoop polls ((timeout_seconds + 1) / 2) 0

/-- `TransferResult` of the source. -/
structure TransferResult where
  success : Bool
  transfer_id : Option String := none
  error : String := ""
  status_code : Option Nat := none
deriving DecidableEq, Repr

/-- A decoded response of POST /sepa/transfers: HTTP status plus the body
fields the source inspects (`transfer.id`/`uuid`, whether a 422 body mentions
idempotency/"already", the extracted error message, `sca_session_token`). -/
structure HResp where
  code : Nat
  tid : String := ""
  idemConflict : Bool := false
  errMsg : String := ""
  scaToken : String := ""
deriving DecidableEq, Repr

inductive PostOutcome
  | ok (r : HResp)
  | connFailed (msg : String)
deriving DecidableEq, Repr

/-- `_parse_transfer_response` of the source. -/
def _parse_transfer_response (r : HResp) : TransferResult :=
  if r.code = 200 || r.code = 201 then
    { success := true, transfer_id := some r.tid, status_code := some r.code }
  else if r.code = 422 then
    if r.idemConflict then
      { success := true, error := "Bereits verarbeitet (Idempotenz)", status_code := some 422 }
    else { success := false, error := r.errMsg, status_code := some 422 }
  else { success := false, error := r.errMsg, status_code := some r.code }

/-- The bank as seen by one `create_transfer` call, indexed by the
idempotency key of the disbursement intent: the payee-verification outcome
(`none` = the VOP step raised), the outcome of the first POST /sepa/transfers,
the SCA poll responses, and the outcome of the retried POST carrying the SCA
session token. -/
structure BankEnv where
  vop : String → Option String
  firstPost : String → PostOutcome
  scaPolls : String → Nat → PollOutcome
  secondPost : String → PostOutcome

/-- Network calls visible to the orchestrator trace. -/
inductive Event
  | ledgerPending (key : String)
  | ledgerSuccess (key : String)
  | ledgerFailure (key : String)
  | netVerifyPayee (key : String)
  | netCreateTransfer (key : String)
deriving DecidableEq, Repr

/-- `create_transfer` of the source, with the network events it issues
(verify-payee POST; each transfer-creation POST). -/
def create_transfer (env : BankEnv) (key : String) : TransferResult × List Event :=
  match env.vop key with
  | none => ({ success := false, error := "VOP fehlgeschlagen" }, [.netVerifyPayee key])
  | some _ =>
    match env.firstPost key with
    | .connFailed msg =>
      ({ success := false, error := msg }, [.netVerifyPayee key, .netCreateTransfer key])
    | .ok r =>
      if r.code = 428 then
        if r.scaToken = "" then
          ({ success := false, error := "SCA erforderlich, aber kein sca_session_token.",
             status_code := some 428 },
           [.netVerifyPayee key, .netCreateTransfer key])
        else if _poll_sca_session (env.scaPolls key) 300 then
          match env.secondPost key with
          | .connFailed msg =>
            ({ success := false, error := msg },
             [.netVerifyPayee key, .netCreateTransfer key, .netCreateTransfer key])
          | .ok r2 =>
            (_parse_transfer_response r2,
             [.netVerifyPayee key, .netCreateTransfer key, .netCreateTransfer key])
        else
          ({ success := false, error := "SCA-Genehmigung verweigert oder Timeout.",
             status_code := some 428 },
           [.netVerifyPayee key, .netCreateTransfer key])
      else (_parse_transfer_response r, [.netVerifyPayee key, .netCreateTransfer key])

/-
Transfer orchestrator: the per-employee loop body of `payroll_process`
(src/skills/payroll/__init__.py, lines 160-195) and the loop over the roster.
-/

/-- Result of one loop iteration: the name appended to `transfer_ok` or to
`transfer_fail`, and the ledger/network events of the iteration in order. -/
structure StepResult where
  okName : Option String := none
  failName : Option String := none
  events : List Event := []
deriving DecidableEq, Repr

/-- One iteration of the transfer loop of `payroll_process`. -/
def stepEmployee (env : BankEnv) (period : String) (now : Nat) (l : Ledger)
    (emp : Employee) : Ledger × StepResult :=
  if emp.amount_cents ≤ 0 then (l, { failName := some emp.name })
  else
    let key := make_idempotency_key emp.name period emp.amount_cents
    if is_already_processed l key then (l, { okName := some emp.name })
    else
      let l1 := record_pending l key emp.name period emp.amount_cents now
      let ce := create_transfer env key
      if ce.1.success then
        (record_success l1 key ce.1.transfer_id now,
         { okName := some emp.name,
           events := .ledgerPending key :: ce.2 ++ [.ledgerSuccess key] })
      else
        (record_failure l1 key ce.1.error now,
         { failName := some emp.name,
           events := .ledgerPending key :: ce.2 ++ [.ledgerFailure key] })

/-- The transfer loop of `payroll_process` over the roster, in order. -/
def runTransfers (env : BankEnv) (period : String) (now : Nat) :
    Ledger → List Employee → Ledger × List StepResult
  | l, [] => (l, [])
  | l, e :: es =>
    let st := stepEmployee env period now l e
    let rest := runTransfers env period now st.1 es
    (rest.1, st.2 :: rest.2)

/-- The `transfer_ok` list accumulated by the loop. -/
def okNames (rs : List StepResult) : List String := rs.filterMap (fun r => r.okName)

/-- The `transfer_fail` list accumulated by the loop. -/
def failNames (rs : List StepResult) : List String := rs.filterMap (fun r => r.failName)

/-
Top-level orchestration (`payroll_process` in src/skills/payroll/__init__.py)
and the configuration check of `QontoClient.__init__` (qonto_client.py).
-/

/-- The five required environment variables, already passed through
`os.getenv(..., "").strip()` as the source does. -/
structure QontoConfig where
  login : String
  secret_key : String
  debit_iban : String
  client_id : String
  client_secret : String

/-- The `missing` list computed by `QontoClient.__init__`. -/
def missingVars (c : QontoConfig) : List String :=
  [("QONTO_LOGIN", c.login), ("QONTO_SECRET_KEY", c.secret_key),
   ("QONTO_DEBIT_IBAN", c.debit_iban), ("QONTO_CLIENT_ID", c.client_id),
   ("QONTO_CLIENT_SECRET", c.client_secret)].filterMap
    (fun p => if p.2.data = [] then some p.1 else none)

/-- `QontoClient.__init__`: raises `QontoConfigError` when variables are
missing, and only then resolves the bank account (the `orgAccount` oracle is
that network step, which may itself raise `QontoConfigError`). -/
def qontoInit (c : QontoConfig) (orgAccount : Except String String) : Except String String :=
  if missingVars c ≠ [] then .error "Umgebungsvariablen fehlen" else orgAccount

/-- `ParseResult` of csv_parser.py, as consumed by `payroll_process`. -/
structure ParseResult where
  employees : List Employee := []
  errors : List String := []

/-- The observable outcome of one `payroll_process` invocation. -/
structure RunReport where
  csvFailed : Bool := false
  pdf : ProcessingResult := {}
  configFailed : Bool := false
  ledger : Ledger
  steps : List StepResult := []

/-- `payroll_process` of the source: CSV errors abort first; then the PDF is
processed (pages matched and saved); `skip_transfers` returns before any
Qonto work; `QontoClient()` construction failure is caught and reported after
the PDF stage; otherwise the transfer loop runs. -/
def payroll_process (cfg : QontoConfig) (orgAccount : Except String String)
    (env : BankEnv) (csv : ParseResult) (pages : List String) (period : String)
    (skip_transfers : Bool) (saveOk : Nat → Bool) (l : Ledger) (now : Nat) : RunReport :=
  if csv.errors ≠ [] then { csvFailed := true, ledger := l }
  else if csv.employees = [] then { csvFailed := true, ledger := l }
  else
    let pr := process_pdf pages csv.employees period [] saveOk
    if skip_transfers then { pdf := pr.1, ledger := l }
    else
      match qontoInit cfg orgAccount with
      | .error _ => { pdf := pr.1, configFailed := true, ledger := l }
      | .ok _ =>
        let tr := runTransfers env period now l pr.2
        { pdf := pr.1, ledger := tr.1, steps := tr.2 }

/-
Helper lemmas about the ledger operations and the orchestrator step.
-/

theorem record_pending_other (l : Ledger) (key name period : String) (a : Int)
    (now : Nat) (k : String) (h : k ≠ key) :
    record_pending l key name period a now k = l k := by
  simp [record_pending, h]

theorem record_success_other (l : Ledger) (key : String) (tid : Option String)
    (now : Nat) (k : String) (h : k ≠ key) :
    record_success l key tid now k = l k := by
  simp [record_success, h]

theorem record_failure_other (l : Ledger) (key e : String) (now : Nat)
    (k : String) (h : k ≠ key) :
    record_failure l key e now k = l k := by
  simp [record_failure, h]

theorem isap_of_success (l : Ledger) (k : String)
    (h : (l k).map TransferRecord.status = some TStatus.success) :
    is_already_processed l k = true := by
  unfold is_already_processed
  cases hl : l k with
  | none => rw [hl] at h; simp at h
  | some r =>
    rw [hl] at h
    simp only [Option.map_some'] at h
    injection h with h
    simp [h]

/-- A key whose row is `success` is untouched by one orchestrator iteration:
the iteration either skips, or writes only to a key whose row is not
`success`. -/
theorem step_preserves_success (env : BankEnv) (period : String) (now : Nat)
    (l : Ledger) (emp : Employee) (k : String)
    (h : (l k).map TransferRecord.status = some TStatus.success) :
    (stepEmployee env period now l emp).1 k = l k := by
  unfold stepEmployee
  by_cases h0 : emp.amount_cents ≤ 0
  · simp [h0]
  · simp only [h0, if_false]
    by_cases hk : is_already_processed l (make_idempotency_key emp.name period emp.amount_cents) = true
    · simp [hk]
    · have hne : k ≠ make_idempotency_key emp.name period emp.amount_cents := by
        intro he
        exact hk (he ▸ isap_of_success l k h)
      simp only [hk, if_false]
      by_cases hs : (create_transfer env (make_idempotency_key emp.name period emp.amount_cents)).1.success = true
      · simp [hs, record_success_other, record_pending_other, hne]
      · simp [hs, record_failure_other, record_pending_other, hne]

theorem run_preserves_success (env : BankEnv) (period : String) (now : Nat) :
    ∀ (es : List Employee) (l : Ledger) (k : String),
      (l k).map TransferRecord.status = some TStatus.success →
      (runTransfers env period now l es).1 k = l k := by
  intro es
  induction es with
  | nil => intro l k _; rfl
  | cons e es ih =>
    intro l k h
    have hstep := step_preserves_success env period now l e k h
    have h2 : ((stepEmployee env period now l e).1 k).map TransferRecord.status =
        some TStatus.success := by rw [hstep]; exact h
    show (runTransfers env period now (stepEmployee env period now l e).1 es).1 k = l k
    rw [ih (stepEmployee env period now l e).1 k h2, hstep]

/-
Claims C10, C2, C3, C1.
-/

/-- C10: for a key that already exists in the Ledger, `record_pending`
changes only the status (to pending) and the updated_at timestamp; the stored
employee_name, period, amount_cents, transfer_id and created_at of the
existing row are unchanged, even when the arguments differ from the stored
values. -/
theorem C10_record_pending_frame (l : Ledger) (key name period : String)
    (amount_cents : Int) (now : Nat) (r : TransferRecord) (h : l key = some r) :
    ∃ r', record_pending l key name period amount_cents now key = some r' ∧
      r'.employee_name = r.employee_name ∧ r'.period = r.period ∧
      r'.amount_cents = r.amount_cents ∧ r'.transfer_id = r.transfer_id ∧
      r'.created_at = r.created_at ∧ r'.status = TStatus.pending ∧
      r'.updated_at = now := by
  refine ⟨{ r with status := TStatus.pending, updated_at := now }, ?_, rfl, rfl, rfl, rfl, rfl, rfl, rfl⟩
  simp [record_pending, h]

theorem C10_witness :
    (fun k => if k = "K" then
        some (⟨"Jane Doe", "2026-01", 5, TStatus.failed, some "t9", 1, 2⟩ : TransferRecord)
      else none : Ledger) "K" =
      some ⟨"Jane Doe", "2026-01", 5, TStatus.failed, some "t9", 1, 2⟩ ∧
    ∃ r', record_pending
        (fun k => if k = "K" then
          some ⟨"Jane Doe", "2026-01", 5, TStatus.failed, some "t9", 1, 2⟩ else none)
        "K" "Other Name" "2026-02" 777 9 "K" = some r' ∧
      r'.employee_name = "Jane Doe" ∧ r'.period = "2026-01" ∧
      r'.amount_cents = 5 ∧ r'.transfer_id = some "t9" ∧
      r'.created_at = 1 ∧ r'.status = TStatus.pending ∧ r'.updated_at = 9 :=
  ⟨by decide,
   C10_record_pending_frame
     (fun k => if k = "K" then
       some ⟨"Jane Doe", "2026-01", 5, TStatus.failed, some "t9", 1, 2⟩ else none)
     "K" "Other Name" "2026-02" 777 9
     ⟨"Jane Doe", "2026-01", 5, TStatus.failed, some "t9", 1, 2⟩ (by decide)⟩

/-- C2 counterexample: the claim says a `success` row is immutable under
subsequent ledger operations, but `record_pending` on an existing `success`
key rewrites its status to `pending` (the upsert's ON CONFLICT clause updates
the status column unconditionally). -/
theorem C2_counterexample :
    ((fun k => if k = "K" then
        some (⟨"Jane Doe", "2026-02", 100000, TStatus.success, some "t1", 1, 2⟩ : TransferRecord)
      else none : Ledger) "K").map TransferRecord.status = some TStatus.success ∧
    ((record_pending
        (fun k => if k = "K" then
          some ⟨"Jane Doe", "2026-02", 100000, TStatus.success, some "t1", 1, 2⟩ else none)
        "K" "Jane Doe" "2026-02" 100000 3) "K").map TransferRecord.status =
      some TStatus.pending ∧
    ((record_failure
        (fun k => if k = "K" then
          some ⟨"Jane Doe", "2026-02", 100000, TStatus.success, some "t1", 1, 2⟩ else none)
        "K" "err" 3) "K").map TransferRecord.status = some TStatus.failed := by
  refine ⟨by decide, by decide, by decide⟩

/-- C2 (amended): the raw ledger operations can rewrite a `success` row
(`record_pending` resets it to pending, `record_failure` to failed), but the
orchestrator guards every write behind `is_already_processed`, so across any
orchestrator transfer run a key whose row is `success` keeps its entire row
unchanged — it never transitions out of success. -/
theorem C2_success_immutable_in_runs (env : BankEnv) (period : String) (now : Nat)
    (es : List Employee) (l : Ledger) (k : String)
    (h : (l k).map TransferRecord.status = some TStatus.success) :
    (runTransfers env period now l es).1 k = l k :=
  run_preserves_success env period now es l k h

theorem C2_witness :
    ((fun _ => some (⟨"Jane Doe", "2026-02", 100000, TStatus.success, some "t1", 1, 2⟩ : TransferRecord) : Ledger) "K").map
      TransferRecord.status = some TStatus.success ∧
    (runTransfers
        ⟨fun _ => none, fun _ => .connFailed "down", fun _ _ => .connFailed, fun _ => .connFailed "down"⟩
        "2026-02" 7
        (fun _ => some ⟨"Jane Doe", "2026-02", 100000, TStatus.success, some "t1", 1, 2⟩)
        [{ name := "Jane Doe", iban := "DE1", iban_masked := "m", target_dir := "d",
           amount_cents := 100000 }]).1 "K" =
      (fun _ => some (⟨"Jane Doe", "2026-02", 100000, TStatus.success, some "t1", 1, 2⟩ : TransferRecord) : Ledger) "K" :=
  ⟨by decide,
   C2_success_immutable_in_runs
     ⟨fun _ => none, fun _ => .connFailed "down", fun _ _ => .connFailed, fun _ => .connFailed "down"⟩
     "2026-02" 7 _ _ "K" (by decide)⟩

/-- C3: for an employee the orchestrator actually processes (positive amount,
key not already successful), the `pending` ledger write for the key is the
first event of the iteration, strictly before any transfer-creation request
for that key is submitted to the bank. -/
theorem C3_pending_before_submit (env : BankEnv) (period : String) (now : Nat)
    (l : Ledger) (emp : Employee) (h0 : 0 < emp.amount_cents)
    (h1 : is_already_processed l (make_idempotency_key emp.name period emp.amount_cents) = false) :
    (stepEmployee env period now l emp).2.events.head? =
      some (.ledgerPending (make_idempotency_key emp.name period emp.amount_cents)) ∧
    ∀ j, (stepEmployee env period now l emp).2.events.get? j =
        some (.netCreateTransfer (make_idempotency_key emp.name period emp.amount_cents)) →
      0 < j := by
  have hne : ¬ emp.amount_cents ≤ 0 := by omega
  unfold stepEmployee
  simp only [hne, if_false, h1, Bool.false_eq_true]
  by_cases hs : (create_transfer env (make_idempotency_key emp.name period emp.amount_cents)).1.success = true
  · simp only [hs, if_true]
    refine ⟨rfl, ?_⟩
    intro j hj
    cases j with
    | zero => simp at hj
    | succ n => omega
  · simp only [hs, if_false]
    refine ⟨rfl, ?_⟩
    intro j hj
    cases j with
    | zero => simp at hj
    | succ n => omega

theorem C3_witness :
    (0 : Int) < 100000 ∧
    is_already_processed (fun _ => none)
      (make_idempotency_key "Jane Doe" "2026-02" 100000) = false ∧
    ((stepEmployee
        ⟨fun _ => some "vop", fun _ => .ok { code := 201, tid := "t1" }, fun _ _ => .connFailed,
         fun _ => .connFailed "down"⟩
        "2026-02" 7 (fun _ => none)
        { name := "Jane Doe", iban := "DE1", iban_masked := "m", target_dir := "d",
          amount_cents := 100000 }).2.events.head? =
      some (.ledgerPending (make_idempotency_key "Jane Doe" "2026-02" 100000)) ∧
    ∀ j, (stepEmployee
        ⟨fun _ => some "vop", fun _ => .ok { code := 201, tid := "t1" }, fun _ _ => .connFailed,
         fun _ => .connFailed "down"⟩
        "2026-02" 7 (fun _ => none)
        { name := "Jane Doe", iban := "DE1", iban_masked := "m", target_dir := "d",
          amount_cents := 100000 }).2.events.get? j =
        some (.netCreateTransfer (make_idempotency_key "Jane Doe" "2026-02" 100000)) →
      0 < j) :=
  ⟨by decide, rfl,
   C3_pending_before_submit
     ⟨fun _ => some "vop", fun _ => .ok { code := 201, tid := "t1" }, fun _ _ => .connFailed,
      fun _ => .connFailed "down"⟩
     "2026-02" 7 (fun _ => none)
     { name := "Jane Doe", iban := "DE1", iban_masked := "m", target_dir := "d",
       amount_cents := 100000 } (by decide) rfl⟩

theorem mem_okNames_cons (r : StepResult) (rs : List StepResult) (x : String)
    (h : x ∈ okNames rs) : x ∈ okNames (r :: rs) := by
  simp only [okNames, List.filterMap_cons]
  cases r.okName with
  | none => exact h
  | some a => exact List.mem_cons_of_mem a h

/-- C1: in any run over a ledger in which an employee's key is already
`success` (as after a previous identical run), that employee's iteration is
the skip branch: it is counted in `transfer_ok`, and issues no
payee-verification and no transfer-creation network call. -/
theorem C1_second_run_already_processed (env : BankEnv) (period : String) (now : Nat) :
    ∀ (emps : List Employee) (l : Ledger) (i : Nat) (emp : Employee),
      emps.get? i = some emp →
      0 < emp.amount_cents →
      (l (make_idempotency_key emp.name period emp.amount_cents)).map TransferRecord.status =
        some TStatus.success →
      ∃ r, (runTransfers env period now l emps).2.get? i = some r ∧
        r.okName = some emp.name ∧ r.events = [] ∧
        emp.name ∈ okNames (runTransfers env period now l emps).2 := by
  intro emps
  induction emps with
  | nil => intro l i emp hi; cases hi
  | cons e es ih =>
    intro l i emp hi h0 hs
    have hrun : (runTransfers env period now l (e :: es)).2 =
        (stepEmployee env period now l e).2 ::
          (runTransfers env period now (stepEmployee env period now l e).1 es).2 := rfl
    cases i with
    | zero =>
      injection hi with hi
      subst hi
      have hk : is_already_processed l (make_idempotency_key e.name period e.amount_cents) = true :=
        isap_of_success _ _ hs
      have hne : ¬ e.amount_cents ≤ 0 := by omega
      have hstep : stepEmployee env period now l e = (l, { okName := some e.name }) := by
        unfold stepEmployee
        simp [hne, hk]
      refine ⟨{ okName := some e.name }, ?_, rfl, rfl, ?_⟩
      · rw [hrun, hstep]
        rfl
      · rw [hrun, hstep]
        simp [okNames, List.filterMap_cons]
    | succ n =>
      have hi' : es.get? n = some emp := hi
      have hpres := step_preserves_success env period now l e
        (make_idempotency_key emp.name period emp.amount_cents) hs
      have hs' : ((stepEmployee env period now l e).1
          (make_idempotency_key emp.name period emp.amount_cents)).map TransferRecord.status =
          some TStatus.success := by rw [hpres]; exact hs
      obtain ⟨r, hr, hok, hev, hmem⟩ := ih (stepEmployee env period now l e).1 n emp hi' h0 hs'
      refine ⟨r, ?_, hok, hev, ?_⟩
      · rw [hrun]
        exact hr
      · rw [hrun]
        exact mem_okNames_cons _ _ _ hmem

theorem C1_witness :
    [({ name := "Jane Doe", iban := "DE1", iban_masked := "m", target_dir := "d",
        amount_cents := 100000 } : Employee)].get? 0 =
      some { name := "Jane Doe", iban := "DE1", iban_masked := "m", target_dir := "d",
             amount_cents := 100000 } ∧
    (0 : Int) < 100000 ∧
    ∃ r, (runTransfers
        ⟨fun _ => some "vop", fun _ => .connFailed "down", fun _ _ => .connFailed,
         fun _ => .connFailed "down"⟩
        "2026-02" 7
        (fun _ => some ⟨"Jane Doe", "2026-02", 100000, TStatus.success, some "t1", 1, 2⟩)
        [{ name := "Jane Doe", iban := "DE1", iban_masked := "m", target_dir := "d",
           amount_cents := 100000 }]).2.get? 0 = some r ∧
      r.okName = some "Jane Doe" ∧ r.events = [] ∧
      "Jane Doe" ∈ okNames (runTransfers
        ⟨fun _ => some "vop", fun _ => .connFailed "down", fun _ _ => .connFailed,
         fun _ => .connFailed "down"⟩
        "2026-02" 7
        (fun _ => some ⟨"Jane Doe", "2026-02", 100000, TStatus.success, some "t1", 1, 2⟩)
        [{ name := "Jane Doe", iban := "DE1", iban_masked := "m", target_dir := "d",
           amount_cents := 100000 }]).2 :=
  ⟨rfl, by decide,
   C1_second_run_already_processed
     ⟨fun _ => some "vop", fun _ => .connFailed "down", fun _ _ => .connFailed,
      fun _ => .connFailed "down"⟩
     "2026-02" 7
     [{ name := "Jane Doe", iban := "DE1", iban_masked := "m", target_dir := "d",
        amount_cents := 100000 }]
     (fun _ => some ⟨"Jane Doe", "2026-02", 100000, TStatus.success, some "t1", 1, 2⟩)
     0
     { name := "Jane Doe", iban := "DE1", iban_masked := "m", target_dir := "d",
       amount_cents := 100000 }
     rfl (by decide) rfl⟩

/-
Claims C4, C5, C6.
-/

/-- C4 counterexample: with `retries = 3` the loop makes three total attempts,
so three consecutive 503 responses exhaust the budget and the third 503 is
returned as-is — the 201 that would follow is never requested, there is no
recorded success, and only two back-off sleeps occur. -/
theorem C4_counterexample :
    _request (fun n => if n ≤ 3 then .resp 503 none else .resp 201 none) 3 =
      (some 503, [2, 4]) ∧
    (_request (fun n => if n ≤ 3 then .resp 503 none else .resp 201 none) 3).1 ≠ some 201 := by
  refine ⟨by decide, by decide⟩

/-- C4 (amended): the retry budget of 3 counts total attempts. Two
consecutive 503 responses followed by a 201 yield the 201 with two back-off
sleeps of strictly increasing length (2 then 4); a non-transient first
response (not 429, below 500) is returned immediately with no sleep; a
transient status on the final attempt is returned without a further retry;
three connection failures exhaust the budget and raise, after two back-off
sleeps. -/
theorem C4_retry_behavior :
    (_request (fun n => if n ≤ 2 then .resp 503 none else .resp 201 none) 3 =
        (some 201, [2, 4]) ∧ 2 < 4) ∧
    (∀ (wire : Nat → WireOutcome) (s : Nat) (ra : Option Nat), wire 1 = .resp s ra →
      ¬ s = 429 → s < 500 → _request wire 3 = (some s, [])) ∧
    (∀ (wire : Nat → WireOutcome) (s1 s2 s3 : Nat), wire 1 = .resp s1 none →
      wire 2 = .resp s2 none → wire 3 = .resp s3 none →
      (s1 = 429 ∨ 500 ≤ s1) → (s2 = 429 ∨ 500 ≤ s2) → (s3 = 429 ∨ 500 ≤ s3) →
      _request wire 3 = (some s3, [2, 4])) ∧
    (∀ (wire : Nat → WireOutcome), wire 1 = .connFailed → wire 2 = .connFailed →
      wire 3 = .connFailed → _request wire 3 = (none, [2, 4])) := by
  refine ⟨⟨by decide, by decide⟩, ?_, ?_, ?_⟩
  · intro wire s ra h1 h429 h500
    have h500' : ¬ 500 ≤ s := by omega
    simp [_request, requestLoop, h1, h429, h500']
  · intro wire s1 s2 s3 h1 h2 h3 t1 t2 t3
    rcases t1 with t1 | t1 <;> rcases t2 with t2 | t2 <;> rcases t3 with t3 | t3 <;>
      simp [_request, requestLoop, h1, h2, h3, t1, t2, t3]
  · intro wire h1 h2 h3
    simp [_request, requestLoop, h1, h2, h3]

theorem C4_witness :
    ((fun n => if n ≤ 2 then WireOutcome.resp 503 none else .resp 201 none) 1 = .resp 503 none) ∧
    (_request (fun _ => WireOutcome.resp 404 none) 3 = (some 404, [])) ∧
    (_request (fun _ => WireOutcome.resp 503 none) 3 = (some 503, [2, 4])) ∧
    (_request (fun _ => WireOutcome.connFailed) 3 = (none, [2, 4])) :=
  ⟨by decide,
   C4_retry_behavior.2.1 (fun _ => WireOutcome.resp 404 none) 404 none rfl
     (by decide) (by decide),
   C4_retry_behavior.2.2.1 (fun _ => WireOutcome.resp 503 none) 503 503 503 rfl rfl rfl
     (by decide) (by decide) (by decide),
   C4_retry_behavior.2.2.2 (fun _ => WireOutcome.connFailed) rfl rfl rfl⟩

/-- C5 counterexample: with every Qonto environment variable missing, a run
over a one-page document still matches the page to the employee and saves the
per-employee PDF before the configuration error is reported — "no pages are
matched or saved" is false. (No ledger entry is created, and no transfer
step runs.) -/
theorem C5_counterexample :
    missingVars ⟨"", "", "", "", ""⟩ ≠ [] ∧
    (payroll_process ⟨"", "", "", "", ""⟩ (.ok "acc")
        ⟨fun _ => none, fun _ => .connFailed "down", fun _ _ => .connFailed, fun _ => .connFailed "down"⟩
        { employees := [{ name := "Michael Richter", iban := "DE1", iban_masked := "m",
                          target_dir := "d" }] }
        ["Nur Richter hier, Betrag 12,34"] "2026-02" false (fun _ => true)
        (fun _ => none) 7).configFailed = true ∧
    (payroll_process ⟨"", "", "", "", ""⟩ (.ok "acc")
        ⟨fun _ => none, fun _ => .connFailed "down", fun _ _ => .connFailed, fun _ => .connFailed "down"⟩
        { employees := [{ name := "Michael Richter", iban := "DE1", iban_masked := "m",
                          target_dir := "d" }] }
        ["Nur Richter hier, Betrag 12,34"] "2026-02" false (fun _ => true)
        (fun _ => none) 7).pdf.saved_files = ["d/202602_MRI.pdf"] ∧
    (payroll_process ⟨"", "", "", "", ""⟩ (.ok "acc")
        ⟨fun _ => none, fun _ => .connFailed "down", fun _ _ => .connFailed, fun _ => .connFailed "down"⟩
        { employees := [{ name := "Michael Richter", iban := "DE1", iban_masked := "m",
                          target_dir := "d" }] }
        ["Nur Richter hier, Betrag 12,34"] "2026-02" false (fun _ => true)
        (fun _ => none) 7).pdf.unmatched_pages = [] := by
  refine ⟨by decide, by decide, by decide, by decide⟩

/-- C5 (amended): when required Qonto configuration is missing, the
configuration error is reported, no transfer step runs and no ledger entry is
created — but only after the PDF stage: pages are still matched and saved
before the client is constructed. -/
theorem C5_missing_config (cfg : QontoConfig) (orgAccount : Except String String)
    (env : BankEnv) (csv : ParseResult) (pages : List String) (period : String)
    (saveOk : Nat → Bool) (l : Ledger) (now : Nat)
    (hm : missingVars cfg ≠ []) (he : csv.errors = []) (hne : csv.employees ≠ []) :
    (payroll_process cfg orgAccount env csv pages period false saveOk l now).configFailed = true ∧
    (payroll_process cfg orgAccount env csv pages period false saveOk l now).ledger = l ∧
    (payroll_process cfg orgAccount env csv pages period false saveOk l now).steps = [] ∧
    (payroll_process cfg orgAccount env csv pages period false saveOk l now).pdf =
      (process_pdf pages csv.employees period [] saveOk).1 := by
  unfold payroll_process
  simp [he, hne, qontoInit, hm]

theorem C5_witness :
    missingVars ⟨"", "x", "x", "x", "x"⟩ ≠ [] ∧
    (payroll_process ⟨"", "x", "x", "x", "x"⟩ (.ok "acc")
        ⟨fun _ => none, fun _ => .connFailed "down", fun _ _ => .connFailed, fun _ => .connFailed "down"⟩
        { employees := [{ name := "Michael Richter", iban := "DE1", iban_masked := "m",
                          target_dir := "d" }] }
        ["Nur Richter hier, Betrag 12,34"] "2026-02" false (fun _ => true)
        (fun _ => none) 7).configFailed = true ∧
    (payroll_process ⟨"", "x", "x", "x", "x"⟩ (.ok "acc")
        ⟨fun _ => none, fun _ => .connFailed "down", fun _ _ => .connFailed, fun _ => .connFailed "down"⟩
        { employees := [{ name := "Michael Richter", iban := "DE1", iban_masked := "m",
                          target_dir := "d" }] }
        ["Nur Richter hier, Betrag 12,34"] "2026-02" false (fun _ => true)
        (fun _ => none) 7).steps = [] :=
  ⟨by decide,
   (C5_missing_config ⟨"", "x", "x", "x", "x"⟩ (.ok "acc")
     ⟨fun _ => none, fun _ => .connFailed "down", fun _ _ => .connFailed, fun _ => .connFailed "down"⟩
     { employees := [{ name := "Michael Richter", iban := "DE1", iban_masked := "m",
                       target_dir := "d" }] }
     ["Nur Richter hier, Betrag 12,34"] "2026-02" (fun _ => true) (fun _ => none) 7
     (by decide) rfl (by decide)).1,
   (C5_missing_config ⟨"", "x", "x", "x", "x"⟩ (.ok "acc")
     ⟨fun _ => none, fun _ => .connFailed "down", fun _ _ => .connFailed, fun _ => .connFailed "down"⟩
     { employees := [{ name := "Michael Richter", iban := "DE1", iban_masked := "m",
                       target_dir := "d" }] }
     ["Nur Richter hier, Betrag 12,34"] "2026-02" (fun _ => true) (fun _ => none) 7
     (by decide) rfl (by decide)).2.2.1⟩

theorem pollLoop_no_allow (polls : Nat → PollOutcome)
    (h : ∀ n, polls n ≠ .resp 200 "allow") :
    ∀ fuel n, pollLoop polls fuel n = false := by
  intro fuel
  induction fuel with
  | zero => intro n; rfl
  | succ f ih =>
    intro n
    unfold pollLoop
    cases hp : polls n with
    | connFailed => exact ih (n + 1)
    | resp code result =>
      by_cases hc : code = 200
      · subst hc
        by_cases hr : result = "allow"
        · exact absurd (hr ▸ hp) (h n)
        · simp only [if_pos rfl, if_neg hr]
          by_cases hd : denyResults.contains result = true
          · rw [if_pos hd]
            simp
          · rw [if_neg hd]
            exact ih (n + 1)
      · simp only [if_neg hc]
        exact ih (n + 1)

/-- C6: an approval session whose endpoint never reports `allow` (timeout,
denial variants, errors, or endless waiting) makes the poll return false —
and only an `allow` response can make it return true. In the orchestrator, a
challenged transfer whose session never reports allow ends with that
employee's key recorded `failed` with no external transfer id. -/
theorem C6_approval_timeout :
    (∀ (polls : Nat → PollOutcome) (timeout : Nat),
      (∀ n, polls n ≠ .resp 200 "allow") → _poll_sca_session polls timeout = false) ∧
    (∀ (polls : Nat → PollOutcome) (timeout : Nat),
      _poll_sca_session polls timeout = true → ∃ n, polls n = .resp 200 "allow") ∧
    (∀ (env : BankEnv) (period : String) (now : Nat) (l : Ledger) (emp : Employee)
        (tok : String) (r : HResp),
      0 < emp.amount_cents →
      l (make_idempotency_key emp.name period emp.amount_cents) = none →
      env.vop (make_idempotency_key emp.name period emp.amount_cents) = some tok →
      env.firstPost (make_idempotency_key emp.name period emp.amount_cents) = .ok r →
      r.code = 428 → r.scaToken ≠ "" →
      (∀ n, env.scaPolls (make_idempotency_key emp.name period emp.amount_cents) n ≠
        .resp 200 "allow") →
      (stepEmployee env period now l emp).1
          (make_idempotency_key emp.name period emp.amount_cents) =
        some ⟨emp.name, period, emp.amount_cents, TStatus.failed, none, now, now⟩) := by
  refine ⟨?_, ?_, ?_⟩
  · intro polls timeout h
    exact pollLoop_no_allow polls h _ 0
  · intro polls timeout h
    by_contra hn
    push_neg at hn
    unfold _poll_sca_session at h
    rw [pollLoop_no_allow polls hn _ 0] at h
    cases h
  · intro env period now l emp tok r h0 hl hv hf hc ht hp
    have hne : ¬ emp.amount_cents ≤ 0 := by omega
    have hskip : is_already_processed l (make_idempotency_key emp.name period emp.amount_cents) = false := by
      unfold is_already_processed
      rw [hl]
    have hpoll : _poll_sca_session
        (env.scaPolls (make_idempotency_key emp.name period emp.amount_cents)) 300 = false :=
      pollLoop_no_allow _ hp _ 0
    have hct : create_transfer env (make_idempotency_key emp.name period emp.amount_cents) =
        ({ success := false, error := "SCA-Genehmigung verweigert oder Timeout.",
           status_code := some 428 },
         [.netVerifyPayee (make_idempotency_key emp.name period emp.amount_cents),
          .netCreateTransfer (make_idempotency_key emp.name period emp.amount_cents)]) := by
      unfold create_transfer
      rw [hv, hf]
      simp [hc, ht, hpoll]
    unfold stepEmployee
    simp only [hne, if_false, hskip, Bool.false_eq_true, hct]
    simp [record_failure, record_pending, hl]

theorem C6_witness :
    (∀ n : Nat, (fun (_ : Nat) => PollOutcome.resp 200 "waiting") n ≠ .resp 200 "allow") ∧
    _poll_sca_session (fun _ => PollOutcome.resp 200 "waiting") 300 = false ∧
    (stepEmployee
        ⟨fun _ => some "vop", fun _ => .ok { code := 428, scaToken := "tok" },
         fun _ _ => .resp 200 "waiting", fun _ => .connFailed "down"⟩
        "2026-02" 7 (fun _ => none)
        { name := "Jane Doe", iban := "DE1", iban_masked := "m", target_dir := "d",
          amount_cents := 100000 }).1
        (make_idempotency_key "Jane Doe" "2026-02" 100000) =
      some ⟨"Jane Doe", "2026-02", 100000, TStatus.failed, none, 7, 7⟩ := by
  refine ⟨?_, ?_, ?_⟩
  · intro n h
    simp at h
  · exact C6_approval_timeout.1 (fun _ => PollOutcome.resp 200 "waiting") 300
      (fun n h => by simp at h)
  · exact C6_approval_timeout.2.2
      ⟨fun _ => some "vop", fun _ => .ok { code := 428, scaToken := "tok" },
       fun _ _ => .resp 200 "waiting", fun _ => .connFailed "down"⟩
      "2026-02" 7 (fun _ => none)
      { name := "Jane Doe", iban := "DE1", iban_masked := "m", target_dir := "d",
        amount_cents := 100000 }
      "vop" { code := 428, scaToken := "tok" }
      (by decide) rfl rfl rfl rfl (by decide) (fun n h => by simp at h)

/-
Claim C7.
-/

theorem extractGo_zero (text : Chars) :
    ∀ ps : List (Chars → Option Chars),
      (∀ p ∈ ps, ∀ g, p text = some g → _german_amount_to_cents g = 0) →
      extractGo text ps = 0 := by
  intro ps
  induction ps with
  | nil => intro _; rfl
  | cons p ps ih =>
    intro h
    unfold extractGo
    cases hp : p text with
    | none => exact ih (fun q hq => h q (List.mem_cons_of_mem p hq))
    | some g =>
      show (if 0 < _german_amount_to_cents g then _german_amount_to_cents g
        else extractGo text ps) = 0
      rw [h p (List.mem_cons_self p ps) g hp]
      simp only [Nat.lt_irrefl, if_false]
      exact ih (fun q hq => h q (List.mem_cons_of_mem p hq))

theorem extractGo_first (text : Chars) :
    ∀ (ps1 : List (Chars → Option Chars)) (p : Chars → Option Chars)
      (ps2 : List (Chars → Option Chars)) (g : Chars),
      (∀ q ∈ ps1, ∀ g', q text = some g' → _german_amount_to_cents g' = 0) →
      p text = some g → 0 < _german_amount_to_cents g →
      extractGo text (ps1 ++ p :: ps2) = _german_amount_to_cents g := by
  intro ps1
  induction ps1 with
  | nil =>
    intro p ps2 g _ hp hpos
    unfold extractGo
    rw [List.nil_append] at *
    show (match p text with
      | some g => if 0 < _german_amount_to_cents g then _german_amount_to_cents g else extractGo text ps2
      | none => extractGo text ps2) = _
    rw [hp]
    simp [hpos]
  | cons q ps1 ih =>
    intro p ps2 g h0 hp hpos
    have hq := h0 q (List.mem_cons_self q ps1)
    have hrest : ∀ r ∈ ps1, ∀ g', r text = some g' → _german_amount_to_cents g' = 0 :=
      fun r hr => h0 r (List.mem_cons_of_mem q hr)
    show extractGo text (q :: (ps1 ++ p :: ps2)) = _
    unfold extractGo
    cases hqt : q text with
    | none => exact ih p ps2 g hrest hp hpos
    | some g' =>
      show (if 0 < _german_amount_to_cents g' then _german_amount_to_cents g'
        else extractGo text (ps1 ++ p :: ps2)) = _german_amount_to_cents g
      rw [hq g' hqt]
      simp only [Nat.lt_irrefl, if_false]
      exact ih p ps2 g hrest hp hpos

/-- C7: `extractAmount` tries the ordered pattern list and returns the cent
value of the first pattern whose leftmost match parses to a strictly positive
amount, and zero when no pattern produces one. In particular the labeled
field `Auszahlungsbetrag: 7.633,63 EUR` yields 763363 minor units and
`Betrag 0,00` yields 0 (not found). -/
theorem C7_extract_amount :
    _extract_amount "Auszahlungsbetrag: 7.633,63 EUR" = 763363 ∧
    _extract_amount "Betrag 0,00" = 0 ∧
    (∀ (text : String) (ps1 : List (Chars → Option Chars)) (p : Chars → Option Chars)
        (ps2 : List (Chars → Option Chars)) (g : Chars),
      _AMOUNT_PATTERNS = ps1 ++ p :: ps2 →
      (∀ q ∈ ps1, ∀ g', q text.data = some g' → _german_amount_to_cents g' = 0) →
      p text.data = some g → 0 < _german_amount_to_cents g →
      _extract_amount text = _german_amount_to_cents g) ∧
    (∀ text : String,
      (∀ q ∈ _AMOUNT_PATTERNS, ∀ g, q text.data = some g → _german_amount_to_cents g = 0) →
      _extract_amount text = 0) := by
  refine ⟨by decide, by decide, ?_, ?_⟩
  · intro text ps1 p ps2 g hsplit h0 hp hpos
    unfold _extract_amount
    rw [hsplit]
    exact extractGo_first text.data ps1 p ps2 g h0 hp hpos
  · intro text h
    exact extractGo_zero text.data _AMOUNT_PATTERNS h

theorem C7_witness :
    pat1 "Auszahlungsbetrag: 7.633,63 EUR".data = none ∧
    patKW "auszahlungsbetrag" "Auszahlungsbetrag: 7.633,63 EUR".data = some "7.633,63".data ∧
    0 < _german_amount_to_cents "7.633,63".data ∧
    _extract_amount "Auszahlungsbetrag: 7.633,63 EUR" = _german_amount_to_cents "7.633,63".data := by
  refine ⟨by decide, by decide, by decide, ?_⟩
  exact C7_extract_amount.2.2.1 "Auszahlungsbetrag: 7.633,63 EUR" [pat1]
    (patKW "auszahlungsbetrag")
    [patKW "nettolohn", patKW "nettogehalt", patKW "netto", pat6, patKW "zahlbetrag",
     patKW "betrag", pat9]
    "7.633,63".data rfl
    (fun q hq g' hg' => by
      simp only [List.mem_singleton] at hq
      subst hq
      rw [show pat1 "Auszahlungsbetrag: 7.633,63 EUR".data = none from by decide] at hg'
      cases hg')
    (by decide) (by decide)

/-
Claims C8 and C9.
-/

/-- C8: the tiered identity score for a multi-token name — full-name
containment 1.0; every token present 0.7; otherwise last name present 0.4;
otherwise first name present 0.2; otherwise 0.0 — and the matching
thresholds: a page containing only the last name scores exactly 0.4 and is
matched (threshold inclusive), a page containing no name token scores 0.0 and
is reported unmatched. -/
theorem C8_score_identity :
    (∀ text name : String,
      2 ≤ (pySplit (pyStrip (name.data.map lowerChar))).length →
      (containsSub (text.data.map lowerChar) (pyStrip (name.data.map lowerChar)) = true →
        _score_name_match text name = 1) ∧
      (containsSub (text.data.map lowerChar) (pyStrip (name.data.map lowerChar)) = false →
        (pySplit (pyStrip (name.data.map lowerChar))).all
          (fun p => containsSub (text.data.map lowerChar) p) = true →
        _score_name_match text name = mkRat 7 10) ∧
      (containsSub (text.data.map lowerChar) (pyStrip (name.data.map lowerChar)) = false →
        (pySplit (pyStrip (name.data.map lowerChar))).all
          (fun p => containsSub (text.data.map lowerChar) p) = false →
        containsSub (text.data.map lowerChar)
          ((pySplit (pyStrip (name.data.map lowerChar))).getLastD []) = true →
        _score_name_match text name = mkRat 2 5) ∧
      (containsSub (text.data.map lowerChar) (pyStrip (name.data.map lowerChar)) = false →
        (pySplit (pyStrip (name.data.map lowerChar))).all
          (fun p => containsSub (text.data.map lowerChar) p) = false →
        containsSub (text.data.map lowerChar)
          ((pySplit (pyStrip (name.data.map lowerChar))).getLastD []) = false →
        containsSub (text.data.map lowerChar)
          ((pySplit (pyStrip (name.data.map lowerChar))).headD []) = true →
        _score_name_match text name = mkRat 1 5) ∧
      (containsSub (text.data.map lowerChar) (pyStrip (name.data.map lowerChar)) = false →
        (pySplit (pyStrip (name.data.map lowerChar))).all
          (fun p => containsSub (text.data.map lowerChar) p) = false →
        containsSub (text.data.map lowerChar)
          ((pySplit (pyStrip (name.data.map lowerChar))).getLastD []) = false →
        containsSub (text.data.map lowerChar)
          ((pySplit (pyStrip (name.data.map lowerChar))).headD []) = false →
        _score_name_match text name = 0)) ∧
    _score_name_match "Nur Richter hier" "Michael Richter" = mkRat 2 5 ∧
    (process_pdf ["Nur Richter hier"]
      [{ name := "Michael Richter", iban := "DE1", iban_masked := "m", target_dir := "d" }]
      "2026-02" [] (fun _ => true)).1.unmatched_pages = [] ∧
    _score_name_match "kein Treffer" "Michael Richter" = 0 ∧
    (process_pdf ["kein Treffer"]
      [{ name := "Michael Richter", iban := "DE1", iban_masked := "m", target_dir := "d" }]
      "2026-02" [] (fun _ => true)).1.unmatched_pages = [1] := by
  refine ⟨?_, by decide, by decide, by decide, by decide⟩
  intro text name hlen
  have hlen' : ¬ (pySplit (pyStrip (name.data.map lowerChar))).length < 2 := by omega
  refine ⟨?_, ?_, ?_, ?_, ?_⟩
  · intro h1
    simp [_score_name_match, h1]
  · intro h1 h2
    simp [_score_name_match, h1, h2, hlen']
  · intro h1 h2 h3
    simp only [List.getLastD_eq_getLast?] at h3
    simp [_score_name_match, h1, h2, h3, hlen']
  · intro h1 h2 h3 h4
    simp only [List.getLastD_eq_getLast?] at h3
    simp only [List.headD_eq_head?] at h4
    simp [_score_name_match, h1, h2, h3, h4, hlen']
  · intro h1 h2 h3 h4
    simp only [List.getLastD_eq_getLast?] at h3
    simp only [List.headD_eq_head?] at h4
    simp [_score_name_match, h1, h2, h3, h4, hlen']

theorem C8_witness :
    2 ≤ (pySplit (pyStrip ("Michael Richter".data.map lowerChar))).length ∧
    containsSub ("Nur Richter hier".data.map lowerChar)
      (pyStrip ("Michael Richter".data.map lowerChar)) = false ∧
    (pySplit (pyStrip ("Michael Richter".data.map lowerChar))).all
      (fun p => containsSub ("Nur Richter hier".data.map lowerChar) p) = false ∧
    containsSub ("Nur Richter hier".data.map lowerChar)
      ((pySplit (pyStrip ("Michael Richter".data.map lowerChar))).getLastD []) = true ∧
    _score_name_match "Nur Richter hier" "Michael Richter" = mkRat 2 5 :=
  ⟨by decide, by decide, by decide, by decide,
   ((C8_score_identity.1 "Nur Richter hier" "Michael Richter" (by decide)).2.2.1
     (by decide) (by decide) (by decide))⟩

/-- C9: the idempotency key is a pure function of (name, period, amount in
minor units); the name enters only through `strip().lower()`, so any two
names with the same normalization (case changes, surrounding whitespace)
yield the same key; a fixed input yields the fixed SHA-256 digest below in
every process. -/
theorem C9_derive_key :
    (∀ (n1 n2 period : String) (amount : Int),
      (pyStrip n1.data).map lowerChar = (pyStrip n2.data).map lowerChar →
      make_idempotency_key n1 period amount = make_idempotency_key n2 period amount) ∧
    (∀ (period : String) (amount : Int),
      make_idempotency_key "Jane Doe" period amount =
        make_idempotency_key "  JANE DOE  " period amount) ∧
    make_idempotency_key "Jane Doe" "2026-02" 100000 =
      "9bd74d60db94e564f7b2d00c9345f16fc0f220acba99300b3a3e4bbc6bd1fa8f" := by
  have hgen : ∀ (n1 n2 period : String) (amount : Int),
      (pyStrip n1.data).map lowerChar = (pyStrip n2.data).map lowerChar →
      make_idempotency_key n1 period amount = make_idempotency_key n2 period amount := by
    intro n1 n2 period amount h
    unfold make_idempotency_key
    rw [h]
  exact ⟨hgen, fun period amount => hgen _ _ period amount (by decide), by decide⟩

theorem C9_witness :
    (pyStrip "  JANE doe ".data).map lowerChar = (pyStrip "Jane Doe".data).map lowerChar ∧
    make_idempotency_key "  JANE doe " "2026-02" 100000 =
      make_idempotency_key "Jane Doe" "2026-02" 100000 :=
  ⟨by decide, C9_derive_key.1 "  JANE doe " "Jane Doe" "2026-02" 100000 (by decide)⟩
